import Mathlib

/-!
Shallow embedding of the PDF-processing tool (pdf_processor.py and
batch_processor.py) and verification of its specification.

Modelling conventions:
* Python strings are Lean `String`s; `str.strip()`, `str.lower()` and
  `str.endswith` are re-implemented over the character list so that they
  evaluate inside the kernel (`strip`, `lower`, `ends_with`).
* The external PDF/image libraries (PyPDF2, cv2, PIL) are opaque
  collaborators: a document is described by the data the code reads from
  them — the page count, the per-page extracted text (`Except` for a
  raising `extract_text`, `Option` for a `None` return), and the edge
  density of the rasterised first page (a rational, the quotient
  `count_nonzero edges / total pixels`).
* Each `ThreadPoolExecutor`/`as_completed` loop is modelled by an explicit
  completion order: a list of task indices that is a permutation of the
  submitted indices.  Results are folded in completion order exactly as the
  Python loop appends them.
* Filesystem writes performed by a pipeline are collected into a list of
  written paths; `os.path.join a b` is `a ++ "/" ++ b` for the relative
  names the code joins.
-/

namespace PdfTool

/-- Python whitespace characters stripped by `str.strip()` (ASCII subset;
the inputs in this development are ASCII). -/
def py_whitespace : List Char := [' ', '\t', '\n', '\r', Char.ofNat 11, Char.ofNat 12]

/-- Embedding of Python `str.strip()`: drop whitespace from both ends. -/
def strip (s : String) : String :=
  ⟨((s.data.dropWhile (fun c => py_whitespace.contains c)).reverse.dropWhile
      (fun c => py_whitespace.contains c)).reverse⟩

/-- Embedding of Python `str.lower()` (ASCII). -/
def lower (s : String) : String := ⟨s.data.map Char.toLower⟩

/-- Embedding of Python `str.endswith(suffix)`. -/
def ends_with (s suffix : String) : Bool := List.isSuffixOf suffix.data s.data

/-- Embedding of `os.path.join` for the relative second components the code
joins (never absolute, never empty). -/
def path_join (a b : String) : String := a ++ "/" ++ b

/-- Truthiness of a Python string: non-empty. -/
def py_truthy (s : String) : Bool := s ≠ ""

/-- Result of `detect_pdf_type`: the two classification outcomes. -/
inductive PdfType where
  | raster
  | vector
deriving DecidableEq

/-- Threshold `self.raster_threshold = 0.95` set in `PDFProcessor.__init__`. -/
def raster_threshold : ℚ := 95 / 100

/-- Embedding of `PDFProcessor.detect_pdf_type`.  `page0_text` is what
`reader.pages[0].extract_text()` returns; `edge_density` is the value
`np.count_nonzero(edges) / (edges.shape[0] * edges.shape[1])` computed from
the rasterised first page (only consulted when the text check fails). -/
def detect_pdf_type (page0_text : String) (edge_density : ℚ) : PdfType :=
  if py_truthy (strip page0_text) then .vector
  else if edge_density > raster_threshold then .raster
  else .vector

/-- Output path built by `_process_single_page`:
`os.path.join(output_dir, f'page_\x7bpage_num+1\x7d_processed.png')`. -/
def page_output_path (output_dir : String) (page_num : Nat) : String :=
  path_join output_dir ("page_" ++ toString (page_num + 1) ++ "_processed.png")

/-- Dictionary returned by `_process_single_page`: always a `page_number`,
and either a `file_path` (success) or an `error` message. -/
structure RasterPageResult where
  page_number : Nat
  outcome : Except String String

/-- Embedding of `_process_single_page`.  `render_err` is `some e` when the
render/threshold/imwrite sequence raises with message `e` for this page,
`none` when it succeeds; on success the page writes and reports the file at
`page_output_path`. -/
def process_single_page (output_dir : String) (page_num : Nat)
    (render_err : Option String) : RasterPageResult :=
  match render_err with
  | none => ⟨page_num + 1, .ok (page_output_path output_dir page_num)⟩
  | some e => ⟨page_num + 1, .error e⟩

/-- Page budget `min(total_pages, self.max_pages) if self.max_pages else
total_pages`.  Python truthiness: both `None` and `0` are falsy, so a
cap of `0` selects all pages. -/
def pages_to_process (total_pages : Nat) (max_pages : Option Nat) : Nat :=
  match max_pages with
  | some m => if m ≠ 0 then min total_pages m else total_pages
  | none => total_pages

/-- The `results` dictionary built by `process_raster_pdf`. -/
structure RasterReport where
  total_pages : Nat
  pages_processed : Nat
  processed_images : List String
deriving DecidableEq

/-- The `as_completed` collection loop of `process_raster_pdf`: results
whose dictionary lacks an `error` key have their `file_path` appended. -/
def raster_collect (acc : List String) (r : RasterPageResult) : List String :=
  match r.outcome with
  | .ok p => acc ++ [p]
  | .error _ => acc

/-- Embedding of `process_raster_pdf`.  `total_pages` is
`len(reader.pages)`; `render_err i` describes page `i`'s fate inside
`_process_single_page`; `order` is the order in which the submitted futures
complete (a permutation of `range pages_to_process`). -/
def process_raster_pdf (total_pages : Nat) (max_pages : Option Nat)
    (output_dir : String) (render_err : Nat → Option String)
    (order : List Nat) : RasterReport :=
  let ptp := pages_to_process total_pages max_pages
  let completed := order.map (fun i => process_single_page output_dir i (render_err i))
  { total_pages := total_pages
    pages_processed := ptp
    processed_images := completed.foldl raster_collect [] }

/-- Files written by a raster run: `cv2.imwrite` runs once per successful
page, at that page's `page_output_path`. -/
def process_raster_pdf_writes (output_dir : String) (render_err : Nat → Option String)
    (order : List Nat) : List String :=
  (order.filter (fun i => (render_err i).isNone)).map (page_output_path output_dir)

/-- The text `_process_vector_page` ends up with: the extracted string, or
`""` when `extract_text` returned `None` or raised. -/
def extract_text_result (extract : Except String (Option String)) : String :=
  match extract with
  | .ok (some t) => t
  | .ok none => ""
  | .error _ => ""

/-- Dictionary returned by `_process_vector_page` (the `error` key added by
its outer handler is never consulted by the caller, which reads only
`text` and `text_length`). -/
structure VectorPageResult where
  page_number : Nat
  text : String
  text_length : Nat
deriving DecidableEq

/-- Embedding of `_process_vector_page`'s returned dictionary. -/
def process_vector_page (extract : Except String (Option String))
    (page_num : Nat) : VectorPageResult :=
  let text := extract_text_result extract
  ⟨page_num + 1, text, text.length⟩

/-- The `if text.strip():` guard used throughout the vector pipeline. -/
def has_text (t : String) : Bool := py_truthy (strip t)

/-- Relative filename `f'page_\x7bpage_num+1\x7d_text.txt'`. -/
def vector_page_name (page_num : Nat) : String :=
  "page_" ++ toString (page_num + 1) ++ "_text.txt"

/-- Files written by `_process_vector_page`: the text file is written only
when the stripped text is non-empty. -/
def vector_page_writes (output_dir : String) (page_num : Nat) (text : String) : List String :=
  if has_text text then [path_join output_dir (vector_page_name page_num)] else []

/-- The `results` dictionary built by `process_vector_pdf`.  Metadata is
`reader.metadata`, kept abstract as an optional key/value list. -/
structure VectorReport where
  total_pages : Nat
  pages_processed : Nat
  text_content : List String
  metadata : Option (List (String × String))
  pages_with_text : Nat
  total_text_length : Nat
deriving DecidableEq

/-- One iteration of the `as_completed` loop in `process_vector_pdf`:
append `result['text']`, and bump the two counters when the stripped text
is non-empty. -/
def vector_step (acc : VectorReport) (r : VectorPageResult) : VectorReport :=
  let acc' := { acc with text_content := acc.text_content ++ [r.text] }
  if has_text r.text then
    { acc' with
      pages_with_text := acc'.pages_with_text + 1
      total_text_length := acc'.total_text_length + r.text_length }
  else acc'

/-- Embedding of `process_vector_pdf`.  `pages i` is what
`reader.pages[i].extract_text()` does; `order` is the completion order of
the submitted futures (a permutation of `range total_pages`). -/
def process_vector_pdf (pages : List (Except String (Option String)))
    (metadata : Option (List (String × String))) (order : List Nat) : VectorReport :=
  let completed := order.map (fun i => process_vector_page (pages.getD i (.ok none)) i)
  completed.foldl vector_step
    { total_pages := pages.length
      pages_processed := pages.length
      text_content := []
      metadata := metadata
      pages_with_text := 0
      total_text_length := 0 }

/-- Files written by a vector run: each page task writes its text file
exactly when its stripped text is non-empty. -/
def process_vector_pdf_writes (pages : List (Except String (Option String)))
    (output_dir : String) : List String :=
  (List.range pages.length).flatMap
    (fun i => vector_page_writes output_dir i (extract_text_result (pages.getD i (.ok none))))

/-- Entry of the `processed_files` list of a normalised report.
`content_length` is present only for vector entries. -/
structure ProcessedFileEntry where
  page_number : Nat
  file_path : String
  file_type : String
  content_length : Option Nat
deriving DecidableEq

/-- A normalised per-document report, as produced by
`_normalize_raster_results` / `_normalize_vector_results`.  Raster reports
carry no `metadata` key, modelled by `none`. -/
structure NormalizedDoc where
  type : String
  total_pages : Nat
  processed_files : List ProcessedFileEntry
  metadata : Option (List (String × String))
deriving DecidableEq

/-- Embedding of `BatchPDFProcessor._normalize_raster_results`. -/
def normalize_raster_results (results : RasterReport) : NormalizedDoc :=
  { type := "raster"
    total_pages := results.total_pages
    processed_files := results.processed_images.enum.map
      (fun p => { page_number := p.1 + 1
                  file_path := p.2
                  file_type := "image"
                  content_length := none })
    metadata := none }

/-- Embedding of `BatchPDFProcessor._normalize_vector_results`.  The Python
`results["metadata"] if results["metadata"] else \x7b\x7d` maps a missing or
empty metadata object to the empty mapping. -/
def normalize_vector_results (results : VectorReport) : NormalizedDoc :=
  { type := "vector"
    total_pages := results.total_pages
    processed_files := results.text_content.enum.map
      (fun p => { page_number := p.1 + 1
                  file_path := vector_page_name p.1
                  file_type := "text"
                  content_length := some p.2.length })
    metadata := some (results.metadata.getD []) }

/-- Embedding of `os.path.basename`: the part after the last slash. -/
def basename (p : String) : String :=
  ⟨(p.data.reverse.takeWhile (fun c => c ≠ '/')).reverse⟩

/-- Stem part of `os.path.splitext`: cut at the last dot of the name,
except that leading dots never start an extension. -/
def splitext_stem (f : String) : String :=
  let cs := f.data
  let lead := (cs.takeWhile (fun c => c == '.')).length
  let rest := cs.drop lead
  if rest.contains '.' then
    ⟨cs.take (lead + (rest.length - 1 - rest.reverse.indexOf '.'))⟩
  else f

/-- What `PDFProcessor.process_pdf` does for one document, as observed by
`process_single_pdf`: it raises (document unreadable / unclassifiable), or
it classifies the document and runs the corresponding pipeline with the
given page data and completion order. -/
inductive DocSpec where
  | failure (msg : String)
  | raster (total_pages : Nat) (max_pages : Option Nat)
      (render_err : Nat → Option String) (order : List Nat)
  | vector (pages : List (Except String (Option String)))
      (metadata : Option (List (String × String))) (order : List Nat)

/-- One entry of the batch `results` list: the dictionary built by
`process_single_pdf`.  A present `error` key models the except-branch
dictionary; a present `report` models the success branch. -/
structure BatchEntry where
  pdf_name : String
  pdf_path : String
  error : Option String
  report : Option NormalizedDoc

/-- Embedding of `BatchPDFProcessor.process_single_pdf`, paired with the
files its document run writes.  On failure the document was never opened
or classified, so no pipeline write happens. -/
def process_single_pdf (pdf_path output_dir : String) (spec : DocSpec) :
    BatchEntry × List String :=
  match spec with
  | .failure msg =>
      ({ pdf_name := basename pdf_path
         pdf_path := pdf_path
         error := some msg
         report := none }, [])
  | .raster total max err order =>
      let pdf_name := splitext_stem (basename pdf_path)
      let sub := path_join output_dir pdf_name
      let r := process_raster_pdf total max sub err order
      ({ pdf_name := pdf_name
         pdf_path := pdf_path
         error := none
         report := some (normalize_raster_results r) },
       process_raster_pdf_writes sub err order)
  | .vector pages md order =>
      let pdf_name := splitext_stem (basename pdf_path)
      let sub := path_join output_dir pdf_name
      let r := process_vector_pdf pages md order
      ({ pdf_name := pdf_name
         pdf_path := pdf_path
         error := none
         report := some (normalize_vector_results r) },
       process_vector_pdf_writes pages sub)

/-- The `summary` dictionary built by `process_directory`. -/
structure BatchSummary where
  total_pdfs : Nat
  successful_processing : Nat
  failed_processing : Nat
  results : List BatchEntry

/-- Return value of `process_directory`: the early no-PDFs error
dictionary, or the summary. -/
inductive DirectoryResult where
  | errorResult (msg : String)
  | summaryResult (s : BatchSummary)

/-- The filter `f.lower().endswith('.pdf')` of `process_directory`. -/
def is_pdf_file (f : String) : Bool := ends_with (lower f) ".pdf"

/-- Embedding of `BatchPDFProcessor.process_directory`, paired with every
file the call writes.  `listing` is `os.listdir(input_dir)`; `spec` gives
each PDF path's processing behaviour; `dorder` is the completion order of
the per-document futures (a permutation of `range` over the PDF list). -/
def process_directory (input_dir output_dir : String) (listing : List String)
    (spec : String → DocSpec) (dorder : List Nat) :
    DirectoryResult × List String :=
  let pdf_files := (listing.filter is_pdf_file).map (fun f => path_join input_dir f)
  if pdf_files.isEmpty then
    (.errorResult "No PDF files found in the input directory", [])
  else
    let completed := dorder.map (fun i =>
      let p := pdf_files.getD i ""
      process_single_pdf p output_dir (spec p))
    let results := completed.map Prod.fst
    let summary : BatchSummary :=
      { total_pdfs := pdf_files.length
        successful_processing := (results.filter (fun r => r.error.isNone)).length
        failed_processing := (results.filter (fun r => r.error.isSome)).length
        results := results }
    (.summaryResult summary,
     (completed.map Prod.snd).flatten ++ [path_join output_dir "processing_results.json"])

/-- Batch fixture: a directory with one corrupted PDF and one valid
one-page vector PDF. -/
def demo_spec : String → DocSpec := fun p =>
  if p = "in/bad.pdf" then .failure "corrupt file"
  else .vector [.ok (some "hello")] none [0]

/-- Normalised raster `processed_files` list for one run, as the batch
layer builds it from the pipeline report. -/
def raster_normalized_files (total_pages : Nat) (max_pages : Option Nat)
    (output_dir : String) (render_err : Nat → Option String) (order : List Nat) :
    List ProcessedFileEntry :=
  (normalize_raster_results
    (process_raster_pdf total_pages max_pages output_dir render_err order)).processed_files

/-- Indices of the pages whose raster job succeeded, in completion order. -/
def successful_pages (render_err : Nat → Option String) (order : List Nat) : List Nat :=
  order.filter (fun i => (render_err i).isNone)

/-- Normalised vector `processed_files` list for one run. -/
def vector_normalized_files (pages : List (Except String (Option String)))
    (metadata : Option (List (String × String))) (order : List Nat) :
    List ProcessedFileEntry :=
  (normalize_vector_results (process_vector_pdf pages metadata order)).processed_files

/-! ## Helper lemmas about the collection folds -/

theorem vector_foldl_text_content (rs : List VectorPageResult) (acc : VectorReport) :
    (rs.foldl vector_step acc).text_content = acc.text_content ++ rs.map VectorPageResult.text := by
  induction rs generalizing acc with
  | nil => simp
  | cons r t ih =>
      rw [List.foldl_cons, ih]
      cases hh : has_text r.text <;> simp [vector_step, hh]

theorem vector_foldl_pages_with_text (rs : List VectorPageResult) (acc : VectorReport) :
    (rs.foldl vector_step acc).pages_with_text
      = acc.pages_with_text + (rs.filter (fun r => has_text r.text)).length := by
  induction rs generalizing acc with
  | nil => simp
  | cons r t ih =>
      rw [List.foldl_cons, ih]
      cases hh : has_text r.text
      · simp [vector_step, hh, List.filter_cons]
      · simp [vector_step, hh, List.filter_cons]
        omega

theorem vector_foldl_total_text_length (rs : List VectorPageResult) (acc : VectorReport) :
    (rs.foldl vector_step acc).total_text_length
      = acc.total_text_length
          + ((rs.filter (fun r => has_text r.text)).map VectorPageResult.text_length).sum := by
  induction rs generalizing acc with
  | nil => simp
  | cons r t ih =>
      rw [List.foldl_cons, ih]
      cases hh : has_text r.text
      · simp [vector_step, hh, List.filter_cons]
      · simp [vector_step, hh, List.filter_cons]
        omega

theorem raster_foldl_collect (rs : List RasterPageResult) (acc : List String) :
    rs.foldl raster_collect acc = acc ++ rs.filterMap (fun r => r.outcome.toOption) := by
  induction rs generalizing acc with
  | nil => simp
  | cons r t ih =>
      rw [List.foldl_cons, ih]
      cases hr : r.outcome <;> simp [raster_collect, hr, Except.toOption]

theorem filterMap_single_page (output_dir : String) (render_err : Nat → Option String)
    (order : List Nat) :
    (order.map (fun i => process_single_page output_dir i (render_err i))).filterMap
        (fun r => r.outcome.toOption)
      = (order.filter (fun i => (render_err i).isNone)).map (page_output_path output_dir) := by
  induction order with
  | nil => rfl
  | cons a t ih =>
      have ih' := ih
      rw [List.filterMap_map] at ih'
      cases ha : render_err a <;>
        simp [List.filterMap_cons, List.filter_cons, ha, process_single_page,
          Except.toOption] <;>
        exact ih'

theorem processed_images_eq (total_pages : Nat) (max_pages : Option Nat)
    (output_dir : String) (render_err : Nat → Option String) (order : List Nat) :
    (process_raster_pdf total_pages max_pages output_dir render_err order).processed_images
      = (order.filter (fun i => (render_err i).isNone)).map (page_output_path output_dir) := by
  have h1 : (process_raster_pdf total_pages max_pages output_dir render_err order).processed_images
      = (order.map (fun i => process_single_page output_dir i (render_err i))).foldl
          raster_collect [] := rfl
  rw [h1, raster_foldl_collect, List.nil_append, filterMap_single_page]

/-! ## Claims about the type classifier -/

/-- Claim C2: whenever page 0's extracted text is non-empty after stripping
whitespace, `detect_pdf_type` classifies the document as vector, whatever
the edge density of the rasterised page would have been. -/
theorem detect_text_is_vector (page0_text : String) (edge_density : ℚ)
    (h : strip page0_text ≠ "") :
    detect_pdf_type page0_text edge_density = .vector := by
  simp [detect_pdf_type, py_truthy, h]

/-- Witness for C2: a page with text is classified vector even at edge
density 1. -/
theorem detect_text_is_vector_witness :
    strip "hello" ≠ "" ∧ detect_pdf_type "hello" 1 = .vector :=
  ⟨by decide, detect_text_is_vector "hello" 1 (by decide)⟩

/-- Claim C3: with no extractable text on page 0, the classification is
raster exactly when the edge density of the rasterised first page exceeds
0.95, and vector when it is at most 0.95. -/
theorem detect_no_text_uses_edge_density (page0_text : String) (edge_density : ℚ)
    (h : strip page0_text = "") :
    ((95 : ℚ) / 100 < edge_density → detect_pdf_type page0_text edge_density = .raster) ∧
    (edge_density ≤ (95 : ℚ) / 100 → detect_pdf_type page0_text edge_density = .vector) := by
  refine ⟨fun hd => ?_, fun hd => ?_⟩
  · simp [detect_pdf_type, py_truthy, h, raster_threshold, hd]
  · have hnd : ¬ ((95 : ℚ) / 100 < edge_density) := not_lt.mpr hd
    simp [detect_pdf_type, py_truthy, h, raster_threshold, hnd]

/-- Witness for C3: a blank page at edge density 1 is raster, at edge
density 1/2 it is vector. -/
theorem detect_no_text_uses_edge_density_witness :
    strip "" = "" ∧ detect_pdf_type "" 1 = .raster ∧ detect_pdf_type "" (1 / 2) = .vector :=
  ⟨rfl, (detect_no_text_uses_edge_density "" 1 rfl).1 (by norm_num),
    (detect_no_text_uses_edge_density "" (1 / 2) rfl).2 (by norm_num)⟩

/-! ## Claims about the raster pipeline -/

/-- Claim C1 (refuted): the text-content list is filled in completion
order, not page order.  On a two-page document with page texts "a" and "b"
whose second page's future completes first (completion order `[1, 0]`, a
valid permutation of the submitted pages), the resulting `text_content` is
`["b", "a"]` — its entry 0 is not the text of page 0, although the length
still equals `total_pages`. -/
theorem vector_text_content_not_page_order :
    ([1, 0] : List Nat).Perm (List.range 2) ∧
    (process_vector_pdf [.ok (some "a"), .ok (some "b")] none [1, 0]).total_pages = 2 ∧
    (process_vector_pdf [.ok (some "a"), .ok (some "b")] none [1, 0]).text_content.length = 2 ∧
    (process_vector_pdf [.ok (some "a"), .ok (some "b")] none [1, 0]).text_content = ["b", "a"] ∧
    ¬ (process_vector_pdf [.ok (some "a"), .ok (some "b")] none [1, 0]).text_content
        = [extract_text_result (.ok (some "a")), extract_text_result (.ok (some "b"))] := by
  refine ⟨by decide, rfl, by decide, by decide, by decide⟩

/-- Claim C4 (as stated) fails at a configured page cap of 0: Python's
`if self.max_pages` treats the cap 0 as absent, so a one-page document with
cap 0 reports `pages_processed = 1`, not `min 1 0 = 0`. -/
theorem raster_page_cap_zero_counterexample :
    ([0] : List Nat).Perm (List.range (pages_to_process 1 (some 0))) ∧
    (process_raster_pdf 1 (some 0) "out" (fun _ => none) [0]).pages_processed = 1 ∧
    min 1 0 ≠ 1 := by
  refine ⟨by decide, rfl, by decide⟩

/-- Claim C4 (amended): with a nonzero page cap `N` exactly `min P N` page
jobs are submitted (each completes once, so the completion list has that
length) and the report's `pages_processed` is `min P N`; with no cap, or
with the cap 0 (which Python truthiness treats as no cap), all `P` pages
are processed. -/
theorem raster_page_cap (total_pages : Nat) (max_pages : Option Nat)
    (output_dir : String) (render_err : Nat → Option String) (order : List Nat)
    (h : order.Perm (List.range (pages_to_process total_pages max_pages))) :
    (∀ n : Nat, max_pages = some n → n ≠ 0 →
      order.length = min total_pages n ∧
      (process_raster_pdf total_pages max_pages output_dir render_err order).pages_processed
        = min total_pages n) ∧
    (max_pages = none ∨ max_pages = some 0 →
      order.length = total_pages ∧
      (process_raster_pdf total_pages max_pages output_dir render_err order).pages_processed
        = total_pages) := by
  have hlen : order.length = pages_to_process total_pages max_pages := by
    simpa using h.length_eq
  constructor
  · rintro n rfl hn
    have e : pages_to_process total_pages (some n) = min total_pages n := by
      simp [pages_to_process, hn]
    refine ⟨by rw [hlen, e], ?_⟩
    show pages_to_process total_pages (some n) = min total_pages n
    exact e
  · rintro (rfl | rfl)
    · exact ⟨hlen, rfl⟩
    · have e : pages_to_process total_pages (some 0) = total_pages := by
        simp [pages_to_process]
      refine ⟨by rw [hlen, e], ?_⟩
      show pages_to_process total_pages (some 0) = total_pages
      exact e

/-- Witness for C4 (amended): a three-page document with cap 2 submits two
jobs and reports two pages processed. -/
theorem raster_page_cap_witness :
    ([1, 0] : List Nat).Perm (List.range (pages_to_process 3 (some 2))) ∧
    ([1, 0] : List Nat).length = min 3 2 ∧
    (process_raster_pdf 3 (some 2) "out" (fun _ => none) [1, 0]).pages_processed = min 3 2 :=
  ⟨by decide,
    (raster_page_cap 3 (some 2) "out" (fun _ => none) [1, 0] (by decide)).1 2 rfl (by decide)⟩

/-- Claim C5: per-page raster failures are recorded as error dictionaries
and excluded from `processed_images` (the collected list is exactly the
successful pages' output paths, in completion order), while the reported
`pages_processed` stays the attempted count fixed before processing — so
with at least one failing page the file list is strictly shorter than the
reported count. -/
theorem raster_failure_isolation (total_pages : Nat) (max_pages : Option Nat)
    (output_dir : String) (render_err : Nat → Option String) (order : List Nat)
    (h : order.Perm (List.range (pages_to_process total_pages max_pages))) :
    (process_raster_pdf total_pages max_pages output_dir render_err order).pages_processed
        = pages_to_process total_pages max_pages ∧
    (process_raster_pdf total_pages max_pages output_dir render_err order).processed_images
        = (order.filter (fun i => (render_err i).isNone)).map (page_output_path output_dir) ∧
    ((∃ i ∈ order, (render_err i).isSome) →
      (process_raster_pdf total_pages max_pages output_dir render_err order).processed_images.length
        < (process_raster_pdf total_pages max_pages output_dir render_err order).pages_processed) := by
  refine ⟨rfl, processed_images_eq _ _ _ _ _, ?_⟩
  rintro ⟨i, hi, hsome⟩
  have hlen : order.length = pages_to_process total_pages max_pages := by
    simpa using h.length_eq
  have hnn : ¬ ((render_err i).isNone = true) := by
    cases hr : render_err i
    · rw [hr] at hsome; simp at hsome
    · simp [hr]
  have hlt : (order.filter (fun i => (render_err i).isNone)).length < order.length :=
    List.length_filter_lt_length_iff_exists.mpr ⟨i, hi, hnn⟩
  rw [processed_images_eq, List.length_map]
  calc (order.filter (fun i => (render_err i).isNone)).length
      < order.length := hlt
    _ = _ := hlen

/-- Witness for C5: two pages, page 0 fails; the report still declares two
pages processed but lists only page 1's file. -/
theorem raster_failure_isolation_witness :
    ([1, 0] : List Nat).Perm (List.range (pages_to_process 2 none)) ∧
    ((process_raster_pdf 2 none "out" (fun i => if i = 0 then some "boom" else none) [1, 0]).pages_processed
        = pages_to_process 2 none ∧
      (process_raster_pdf 2 none "out" (fun i => if i = 0 then some "boom" else none) [1, 0]).processed_images
        = (([1, 0] : List Nat).filter
            (fun i => ((if i = 0 then some "boom" else none : Option String)).isNone)).map
              (page_output_path "out") ∧
      ((∃ i ∈ ([1, 0] : List Nat), ((if i = 0 then some "boom" else none : Option String)).isSome) →
        (process_raster_pdf 2 none "out" (fun i => if i = 0 then some "boom" else none) [1, 0]).processed_images.length
          < (process_raster_pdf 2 none "out" (fun i => if i = 0 then some "boom" else none) [1, 0]).pages_processed)) :=
  ⟨by decide,
    raster_failure_isolation 2 none "out" (fun i => if i = 0 then some "boom" else none) [1, 0] (by decide)⟩

/-- A list of naturals is the identity range exactly when each entry equals
its index. -/
theorem eq_range_iff (l : List Nat) :
    l = List.range l.length ↔ ∀ (i : Nat) (h : i < l.length), l.get ⟨i, h⟩ = i := by
  rw [List.ext_get_iff]
  constructor
  · rintro ⟨-, h⟩ i hi
    have h2 : i < (List.range l.length).length := by simpa using hi
    have := h i hi h2
    simpa [List.get_eq_getElem, List.getElem_range] using this
  · intro h
    refine ⟨by simp, fun i h1 h2 => ?_⟩
    rw [h i h1]
    simp [List.get_eq_getElem, List.getElem_range]

/-- Claim C9 (refuted as stated): a failing page with in-order completion
need not produce any entry whose `page_number` disagrees with the page
number embedded in its `file_path`.  Two pages, page 1 fails, completion in
submission order: the only entry is page 0's, numbered 1 with file
`page_1_processed.png`. -/
theorem raster_positional_mismatch_counterexample :
    ([0, 1] : List Nat).Perm (List.range (pages_to_process 2 none)) ∧
    (∃ i ∈ ([0, 1] : List Nat), ((if i = 1 then some "boom" else none : Option String)).isSome) ∧
    ∀ e ∈ (normalize_raster_results
        (process_raster_pdf 2 none "out" (fun i => if i = 1 then some "boom" else none)
          [0, 1])).processed_files,
      e.file_path = page_output_path "out" (e.page_number - 1) := by
  refine ⟨by decide, by decide, by decide⟩

/-- Claim C9 (amended): in the normalised raster result the i-th entry's
`page_number` is always `i+1`, its position in the collected-successes
list, while its `file_path` is the output path of the i-th successful page
in completion order; hence an entry whose `page_number` disagrees with the
page its `file_path` names exists exactly when the successful page indices
in completion order are not `0, 1, …, k-1` in order. -/
theorem raster_positional_page_numbers (total_pages : Nat) (max_pages : Option Nat)
    (output_dir : String) (render_err : Nat → Option String) (order : List Nat) :
    (raster_normalized_files total_pages max_pages output_dir render_err order).length
        = (successful_pages render_err order).length ∧
    (∀ (i : Nat)
        (hi : i < (raster_normalized_files total_pages max_pages output_dir render_err order).length)
        (hs : i < (successful_pages render_err order).length),
        ((raster_normalized_files total_pages max_pages output_dir render_err order).get
            ⟨i, hi⟩).page_number = i + 1 ∧
        ((raster_normalized_files total_pages max_pages output_dir render_err order).get
            ⟨i, hi⟩).file_path
          = page_output_path output_dir ((successful_pages render_err order).get ⟨i, hs⟩)) ∧
    ((∃ (i : Nat)
        (hi : i < (raster_normalized_files total_pages max_pages output_dir render_err order).length)
        (hs : i < (successful_pages render_err order).length),
        ((raster_normalized_files total_pages max_pages output_dir render_err order).get
            ⟨i, hi⟩).page_number ≠ (successful_pages render_err order).get ⟨i, hs⟩ + 1)
      ↔ successful_pages render_err order
          ≠ List.range (successful_pages render_err order).length) := by
  set S := successful_pages render_err order with hS
  set F := raster_normalized_files total_pages max_pages output_dir render_err order with hF
  have hfiles : F = (S.map (page_output_path output_dir)).enum.map
      (fun p => { page_number := p.1 + 1
                  file_path := p.2
                  file_type := "image"
                  content_length := none }) := by
    rw [hF, hS]
    show (normalize_raster_results _).processed_files = _
    rw [normalize_raster_results]
    rw [processed_images_eq]
    rfl
  obtain ⟨hlFS, hpt⟩ := List.ext_get_iff.mp hfiles
  have hlen : F.length = S.length := by
    rw [hfiles]; simp [List.enum_length]
  have hget : ∀ (i : Nat) (hi : i < F.length) (hs : i < S.length),
      (F.get ⟨i, hi⟩).page_number = i + 1 ∧
      (F.get ⟨i, hi⟩).file_path = page_output_path output_dir (S.get ⟨i, hs⟩) := by
    intro i hi hs
    have hib : i < ((S.map (page_output_path output_dir)).enum.map
        (fun p : Nat × String => ({ page_number := p.1 + 1
                                    file_path := p.2
                                    file_type := "image"
                                    content_length := none } : ProcessedFileEntry))).length := by
      rw [← hfiles]; exact hi
    have he := hpt i hi hib
    rw [he, List.get_eq_getElem]
    simp [List.getElem_enum, List.get_eq_getElem]
  refine ⟨hlen, hget, ?_⟩
  constructor
  · rintro ⟨i, hi, hs, hne⟩ heq
    have hgi := (eq_range_iff S).mp heq i hs
    have hpn := (hget i hi hs).1
    omega
  · intro hne
    have hnall : ¬ ∀ (i : Nat) (h : i < S.length), S.get ⟨i, h⟩ = i :=
      fun hall => hne ((eq_range_iff S).mpr hall)
    push_neg at hnall
    obtain ⟨i, hs, hnei⟩ := hnall
    have hi : i < F.length := by rw [hlen]; exact hs
    refine ⟨i, hi, hs, ?_⟩
    have hpn := (hget i hi hs).1
    omega

/-- Witness for C9 (amended): three pages, page 1 fails, pages 0 and 2
complete in order; the second collected entry is numbered 2 but its file is
`page_3_processed.png`, and the mismatch criterion holds. -/
theorem raster_positional_page_numbers_witness :
    (raster_normalized_files 3 none "out"
        (fun i => if i = 1 then some "boom" else none) [0, 2]).length
        = (successful_pages (fun i => if i = 1 then some "boom" else none) [0, 2]).length ∧
    (∀ (i : Nat)
        (hi : i < (raster_normalized_files 3 none "out"
          (fun i => if i = 1 then some "boom" else none) [0, 2]).length)
        (hs : i < (successful_pages (fun i => if i = 1 then some "boom" else none) [0, 2]).length),
        ((raster_normalized_files 3 none "out"
            (fun i => if i = 1 then some "boom" else none) [0, 2]).get ⟨i, hi⟩).page_number
          = i + 1 ∧
        ((raster_normalized_files 3 none "out"
            (fun i => if i = 1 then some "boom" else none) [0, 2]).get ⟨i, hi⟩).file_path
          = page_output_path "out"
              ((successful_pages (fun i => if i = 1 then some "boom" else none) [0, 2]).get
                ⟨i, hs⟩)) ∧
    ((∃ (i : Nat)
        (hi : i < (raster_normalized_files 3 none "out"
          (fun i => if i = 1 then some "boom" else none) [0, 2]).length)
        (hs : i < (successful_pages (fun i => if i = 1 then some "boom" else none) [0, 2]).length),
        ((raster_normalized_files 3 none "out"
            (fun i => if i = 1 then some "boom" else none) [0, 2]).get ⟨i, hi⟩).page_number
          ≠ (successful_pages (fun i => if i = 1 then some "boom" else none) [0, 2]).get
              ⟨i, hs⟩ + 1)
      ↔ successful_pages (fun i => if i = 1 then some "boom" else none) [0, 2]
          ≠ List.range
              (successful_pages (fun i => if i = 1 then some "boom" else none) [0, 2]).length) :=
  raster_positional_page_numbers 3 none "out" (fun i => if i = 1 then some "boom" else none) [0, 2]

/-- The text-content list of a vector run is the completed results' texts
in completion order. -/
theorem vector_text_content_eq (pages : List (Except String (Option String)))
    (metadata : Option (List (String × String))) (order : List Nat) :
    (process_vector_pdf pages metadata order).text_content
      = (order.map (fun i => process_vector_page (pages.getD i (.ok none)) i)).map
          VectorPageResult.text := by
  have h0 : (process_vector_pdf pages metadata order).text_content
      = ((order.map (fun i => process_vector_page (pages.getD i (.ok none)) i)).foldl
          vector_step
          { total_pages := pages.length
            pages_processed := pages.length
            text_content := []
            metadata := metadata
            pages_with_text := 0
            total_text_length := 0 }).text_content := rfl
  rw [h0, vector_foldl_text_content]
  rfl

/-- Claim C6: the aggregate counters of a vector run agree with its
text-content list under any completion order — `pages_with_text` counts the
entries that are non-empty after stripping, and `total_text_length` sums
the untrimmed lengths of exactly those entries. -/
theorem counters_from_results (rs : List VectorPageResult)
    (hr : ∀ r ∈ rs, r.text_length = r.text.length) :
    (rs.filter (fun r => has_text r.text)).length
        = ((rs.map VectorPageResult.text).filter has_text).length ∧
    ((rs.filter (fun r => has_text r.text)).map VectorPageResult.text_length).sum
        = (((rs.map VectorPageResult.text).filter has_text).map String.length).sum := by
  induction rs with
  | nil => simp
  | cons a t ih =>
      have ha := hr a (by simp)
      have iht := ih (fun x hx => hr x (by simp [hx]))
      cases hht : has_text a.text <;>
        simp [List.filter_cons, List.map_cons, hht, iht.1, iht.2, ha]

/-- Claim C6: the aggregate counters of a vector run agree with its
text-content list under any completion order — `pages_with_text` counts the
entries that are non-empty after stripping, and `total_text_length` sums
the untrimmed lengths of exactly those entries. -/
theorem vector_counter_consistency (pages : List (Except String (Option String)))
    (metadata : Option (List (String × String))) (order : List Nat) :
    (process_vector_pdf pages metadata order).pages_with_text
        = ((process_vector_pdf pages metadata order).text_content.filter has_text).length ∧
    (process_vector_pdf pages metadata order).total_text_length
        = (((process_vector_pdf pages metadata order).text_content.filter has_text).map
            String.length).sum := by
  have hts := vector_text_content_eq pages metadata order
  have hmem : ∀ r ∈ order.map (fun i => process_vector_page (pages.getD i (.ok none)) i),
      VectorPageResult.text_length r = r.text.length := by
    intro x hx
    obtain ⟨i, -, rfl⟩ := List.mem_map.mp hx
    rfl
  have hcnt := counters_from_results
    (order.map (fun i => process_vector_page (pages.getD i (.ok none)) i)) hmem
  constructor
  · have h1 : (process_vector_pdf pages metadata order).pages_with_text
        = 0 + ((order.map (fun i => process_vector_page (pages.getD i (.ok none)) i)).filter
            (fun r => has_text r.text)).length :=
      vector_foldl_pages_with_text _ _
    rw [h1, Nat.zero_add, hts]
    exact hcnt.1
  · have h2 : (process_vector_pdf pages metadata order).total_text_length
        = 0 + (((order.map (fun i => process_vector_page (pages.getD i (.ok none)) i)).filter
            (fun r => has_text r.text)).map VectorPageResult.text_length).sum :=
      vector_foldl_total_text_length _ _
    rw [h2, Nat.zero_add, hts]
    exact hcnt.2

/-- Appending singleton-or-empty blocks concentrates into a filtered map. -/
theorem flatMap_if_singleton {α β : Type} (l : List α) (p : α → Bool) (f : α → β) :
    (l.flatMap fun a => if p a then [f a] else []) = (l.filter p).map f := by
  induction l with
  | nil => rfl
  | cons a t ih =>
      cases hp : p a <;> simp [List.flatMap_cons, List.filter_cons, hp, ih]

/-- A bare relative filename is never the result of joining it onto an
output directory. -/
theorem name_ne_path_join (d n : String) : n ≠ path_join d n := by
  intro he
  have hl := congrArg String.length he
  rw [path_join, String.length_append, String.length_append] at hl
  have hone : ("/" : String).length = 1 := rfl
  rw [hone] at hl
  omega

/-- Claim C10: the normalised vector report has one `processed_files` entry
per page, including empty pages; every entry's `file_path` is the bare name
`page_<n>_text.txt` (never a joined output path); entry `content_length`s
mirror the text-content entries (0 for empty text); and no text file is
written for a page whose stripped text is empty — the run's writes are
exactly the non-empty pages' files. -/
theorem vector_normalized_entries (pages : List (Except String (Option String)))
    (metadata : Option (List (String × String))) (output_dir : String) (order : List Nat)
    (h : order.Perm (List.range pages.length)) :
    (vector_normalized_files pages metadata order).length = pages.length ∧
    (∀ (i : Nat) (hi : i < (vector_normalized_files pages metadata order).length),
        ((vector_normalized_files pages metadata order).get ⟨i, hi⟩).file_path
          = vector_page_name i ∧
        ∀ d : String, ((vector_normalized_files pages metadata order).get ⟨i, hi⟩).file_path
          ≠ path_join d (vector_page_name i)) ∧
    (∀ (i : Nat) (hi : i < (vector_normalized_files pages metadata order).length)
        (ht : i < (process_vector_pdf pages metadata order).text_content.length),
        ((vector_normalized_files pages metadata order).get ⟨i, hi⟩).content_length
          = some (((process_vector_pdf pages metadata order).text_content.get ⟨i, ht⟩).length)) ∧
    (∀ (i : Nat) (hi : i < (vector_normalized_files pages metadata order).length)
        (ht : i < (process_vector_pdf pages metadata order).text_content.length),
        (process_vector_pdf pages metadata order).text_content.get ⟨i, ht⟩ = "" →
        ((vector_normalized_files pages metadata order).get ⟨i, hi⟩).content_length = some 0) ∧
    (∀ p : Nat, has_text (extract_text_result (pages.getD p (.ok none))) = false →
        vector_page_writes output_dir p (extract_text_result (pages.getD p (.ok none))) = []) ∧
    process_vector_pdf_writes pages output_dir
      = ((List.range pages.length).filter
          (fun p => has_text (extract_text_result (pages.getD p (.ok none))))).map
          (fun p => path_join output_dir (vector_page_name p)) := by
  set TC := (process_vector_pdf pages metadata order).text_content with hTC
  set V := vector_normalized_files pages metadata order with hV
  have hfiles : V = TC.enum.map
      (fun p => { page_number := p.1 + 1
                  file_path := vector_page_name p.1
                  file_type := "text"
                  content_length := some p.2.length }) := by
    rw [hV, hTC]
    rfl
  obtain ⟨hlVT, hpt⟩ := List.ext_get_iff.mp hfiles
  have htlen : TC.length = pages.length := by
    rw [hTC]
    show (process_vector_pdf pages metadata order).text_content.length = pages.length
    rw [vector_text_content_eq, List.length_map, List.length_map]
    simpa using h.length_eq
  have hflen : V.length = pages.length := by
    rw [hfiles, List.length_map, List.enum_length, htlen]
  have hget : ∀ (i : Nat) (hi : i < V.length) (ht : i < TC.length),
      V.get ⟨i, hi⟩
        = { page_number := i + 1
            file_path := vector_page_name i
            file_type := "text"
            content_length := some ((TC.get ⟨i, ht⟩).length) } := by
    intro i hi ht
    have hib : i < (TC.enum.map
        (fun p : Nat × String =>
          ({ page_number := p.1 + 1
             file_path := vector_page_name p.1
             file_type := "text"
             content_length := some p.2.length } : ProcessedFileEntry))).length := by
      rw [← hfiles]; exact hi
    have he := hpt i hi hib
    rw [he, List.get_eq_getElem]
    simp [List.getElem_enum, List.get_eq_getElem]
  refine ⟨hflen, ?_, ?_, ?_, ?_, ?_⟩
  · intro i hi
    have ht : i < TC.length := by
      rw [htlen]; rw [hflen] at hi; exact hi
    rw [hget i hi ht]
    exact ⟨rfl, fun d => name_ne_path_join d (vector_page_name i)⟩
  · intro i hi ht
    rw [hget i hi ht]
  · intro i hi ht hempty
    rw [hget i hi ht, hempty]
    rfl
  · intro p hfalse
    unfold vector_page_writes
    rw [hfalse]
    simp
  · show (List.range pages.length).flatMap _ = _
    exact flatMap_if_singleton (List.range pages.length)
      (fun p => has_text (extract_text_result (pages.getD p (.ok none))))
      (fun p => path_join output_dir (vector_page_name p))

/-- Witness for C10: a two-page document, one page with text and one empty,
completing out of order. -/
theorem vector_normalized_entries_witness :
    ([1, 0] : List Nat).Perm
        (List.range ([Except.ok (some "hi"), Except.ok (some "")]
          : List (Except String (Option String))).length) ∧
    ((vector_normalized_files [.ok (some "hi"), .ok (some "")] none [1, 0]).length
        = ([Except.ok (some "hi"), Except.ok (some "")]
            : List (Except String (Option String))).length ∧
     (∀ (i : Nat)
        (hi : i < (vector_normalized_files [.ok (some "hi"), .ok (some "")] none [1, 0]).length),
        ((vector_normalized_files [.ok (some "hi"), .ok (some "")] none [1, 0]).get
            ⟨i, hi⟩).file_path = vector_page_name i ∧
        ∀ d : String, ((vector_normalized_files [.ok (some "hi"), .ok (some "")] none
            [1, 0]).get ⟨i, hi⟩).file_path ≠ path_join d (vector_page_name i)) ∧
     (∀ (i : Nat)
        (hi : i < (vector_normalized_files [.ok (some "hi"), .ok (some "")] none [1, 0]).length)
        (ht : i < (process_vector_pdf [.ok (some "hi"), .ok (some "")] none
            [1, 0]).text_content.length),
        ((vector_normalized_files [.ok (some "hi"), .ok (some "")] none [1, 0]).get
            ⟨i, hi⟩).content_length
          = some (((process_vector_pdf [.ok (some "hi"), .ok (some "")] none
              [1, 0]).text_content.get ⟨i, ht⟩).length)) ∧
     (∀ (i : Nat)
        (hi : i < (vector_normalized_files [.ok (some "hi"), .ok (some "")] none [1, 0]).length)
        (ht : i < (process_vector_pdf [.ok (some "hi"), .ok (some "")] none
            [1, 0]).text_content.length),
        (process_vector_pdf [.ok (some "hi"), .ok (some "")] none [1, 0]).text_content.get
            ⟨i, ht⟩ = "" →
        ((vector_normalized_files [.ok (some "hi"), .ok (some "")] none [1, 0]).get
            ⟨i, hi⟩).content_length = some 0) ∧
     (∀ p : Nat, has_text (extract_text_result
          (([Except.ok (some "hi"), Except.ok (some "")]
            : List (Except String (Option String))).getD p (.ok none))) = false →
        vector_page_writes "out" p (extract_text_result
          (([Except.ok (some "hi"), Except.ok (some "")]
            : List (Except String (Option String))).getD p (.ok none))) = []) ∧
     process_vector_pdf_writes [.ok (some "hi"), .ok (some "")] "out"
      = ((List.range ([Except.ok (some "hi"), Except.ok (some "")]
            : List (Except String (Option String))).length).filter
          (fun p => has_text (extract_text_result
            (([Except.ok (some "hi"), Except.ok (some "")]
              : List (Except String (Option String))).getD p (.ok none))))).map
          (fun p => path_join "out" (vector_page_name p))) :=
  ⟨by decide,
    vector_normalized_entries [.ok (some "hi"), .ok (some "")] none "out" [1, 0] (by decide)⟩

/-- Claim C7: on a listing with no file ending case-insensitively in
`.pdf`, `process_directory` returns the no-PDFs error dictionary and
performs no write at all — no per-document output and no
`processing_results.json`. -/
theorem no_pdfs_short_circuit (input_dir output_dir : String) (listing : List String)
    (spec : String → DocSpec) (dorder : List Nat)
    (h : ∀ f ∈ listing, is_pdf_file f = false) :
    process_directory input_dir output_dir listing spec dorder
      = (.errorResult "No PDF files found in the input directory", []) := by
  have hfil : listing.filter is_pdf_file = [] :=
    List.filter_eq_nil_iff.mpr (fun a ha => by simp [h a ha])
  unfold process_directory
  rw [hfil]
  rfl

/-- Witness for C7: a listing with a text file and a non-PDF extension. -/
theorem no_pdfs_short_circuit_witness :
    (∀ f ∈ ["notes.txt", "scan.PDF.bak"], is_pdf_file f = false) ∧
    process_directory "in" "out" ["notes.txt", "scan.PDF.bak"] (fun _ => .failure "unused") []
      = (.errorResult "No PDF files found in the input directory", []) :=
  ⟨by decide,
    no_pdfs_short_circuit "in" "out" ["notes.txt", "scan.PDF.bak"]
      (fun _ => .failure "unused") [] (by decide)⟩

theorem batch_entry_fields (p dir : String) (s : DocSpec) :
    (process_single_pdf p dir s).1.pdf_path = p ∧
    ((process_single_pdf p dir s).1.error.isSome ↔ ∃ m, s = .failure m) := by
  cases s with
  | failure m => exact ⟨rfl, by simp [process_single_pdf]⟩
  | raster a b c d => exact ⟨rfl, by simp [process_single_pdf]⟩
  | vector a b c => exact ⟨rfl, by simp [process_single_pdf]⟩

theorem error_partition (l : List BatchEntry) :
    (l.filter (fun r => r.error.isNone)).length
      + (l.filter (fun r => r.error.isSome)).length = l.length := by
  induction l with
  | nil => rfl
  | cons a t ih =>
      cases ha : a.error
      · simp [List.filter_cons, ha]
        omega
      · simp [List.filter_cons, ha]
        omega

theorem summary_counts (entries : List BatchEntry) (n : Nat) (hlen : entries.length = n) :
    (entries.filter (fun r => r.error.isNone)).length
      + (entries.filter (fun r => r.error.isSome)).length = n := by
  rw [error_partition, hlen]

/-- Claim C8: over a non-empty PDF listing every per-document failure
becomes a results entry whose `error` field is present (successes carry no
`error` field), the summary counts are re-derived scans of the results
list, and they satisfy `successful + failed = total_pdfs = |results|`. -/
theorem batch_error_isolation_and_counts (input_dir output_dir : String)
    (listing : List String) (spec : String → DocSpec) (dorder : List Nat)
    (hne : listing.filter is_pdf_file ≠ [])
    (hperm : dorder.Perm (List.range (listing.filter is_pdf_file).length)) :
    ∃ s : BatchSummary,
      (process_directory input_dir output_dir listing spec dorder).1 = .summaryResult s ∧
      (∀ r ∈ s.results, (r.error.isSome ↔ ∃ m, spec r.pdf_path = .failure m)) ∧
      s.successful_processing = (s.results.filter (fun r => r.error.isNone)).length ∧
      s.failed_processing = (s.results.filter (fun r => r.error.isSome)).length ∧
      s.successful_processing + s.failed_processing = s.total_pdfs ∧
      s.total_pdfs = s.results.length := by
  unfold process_directory
  have hempty : ((listing.filter is_pdf_file).map (fun f => path_join input_dir f)).isEmpty
      = false := by
    cases hl : listing.filter is_pdf_file
    · exact absurd hl hne
    · simp [hl]
  rw [if_neg (by simp [hempty])]
  have hrlen : ((dorder.map (fun i =>
      let p := ((listing.filter is_pdf_file).map (fun f => path_join input_dir f)).getD i ""
      process_single_pdf p output_dir (spec p))).map Prod.fst).length
      = ((listing.filter is_pdf_file).map (fun f => path_join input_dir f)).length := by
    simp only [List.length_map]
    simpa using hperm.length_eq
  refine ⟨_, rfl, ?_, rfl, rfl, ?_, ?_⟩
  · intro r hr
    obtain ⟨pr, hpr, rfl⟩ := List.mem_map.mp hr
    obtain ⟨i, -, rfl⟩ := List.mem_map.mp hpr
    have hf := batch_entry_fields
      (((listing.filter is_pdf_file).map (fun f => path_join input_dir f)).getD i "")
      output_dir
      (spec (((listing.filter is_pdf_file).map (fun f => path_join input_dir f)).getD i ""))
    rw [hf.1]
    exact hf.2
  · exact summary_counts _ _ hrlen
  · exact hrlen.symm

/-- Witness for C8: a corrupted PDF plus a valid vector PDF yield one
failure entry and one success entry. -/
theorem batch_error_isolation_and_counts_witness :
    (["bad.pdf", "good.pdf"].filter is_pdf_file ≠ []) ∧
    (∃ s : BatchSummary,
      (process_directory "in" "out" ["bad.pdf", "good.pdf"] demo_spec [1, 0]).1
        = .summaryResult s ∧
      (∀ r ∈ s.results, (r.error.isSome ↔ ∃ m, demo_spec r.pdf_path = .failure m)) ∧
      s.successful_processing = (s.results.filter (fun r => r.error.isNone)).length ∧
      s.failed_processing = (s.results.filter (fun r => r.error.isSome)).length ∧
      s.successful_processing + s.failed_processing = s.total_pdfs ∧
      s.total_pdfs = s.results.length) :=
  ⟨by decide,
    batch_error_isolation_and_counts "in" "out" ["bad.pdf", "good.pdf"] demo_spec [1, 0]
      (by decide) (by decide)⟩

end PdfTool
